import Mathlib

/-!
Verification of the contact-form validation and notification pipeline of
`src/script.js` (a client-side portfolio page).  The functions
`validateField`, `validateForm`, `showFieldError`, `removeFieldError`,
`handleContactSubmit`, `showNotification` and `dismissNotification` are
shallowly embedded: DOM state becomes explicit record state, the fetch
call becomes an explicit outcome parameter, and timers become virtual
time stamps.
-/

namespace Portfolio

/-- A character admitted by the character class in the email regular
expression of `validateField`, namely the class excluding whitespace
and the at sign.  Source: the regex literal at `script.js` line 540. -/
def isEmailChar (c : Char) : Bool := !c.isWhitespace && c != '@'

/-- Semantics of the anchored regular expression
`/^[^\s@]+@[^\s@]+\.[^\s@]+$/.test(value)` from `script.js` line 540:
the string decomposes as `a ++ at ++ b ++ dot ++ c` with `a`, `b`, `c`
non-empty strings of characters that are neither whitespace nor the at
sign.  Equivalently there are positions `i < j` holding the at sign and
a dot, with at least one character before `i`, between `i` and `j`, and
after `j`, and every other position holding a class character. -/
def matchesEmailRegex (s : String) : Bool :=
  let cs := s.data
  let n := cs.length
  decide (∃ i, i < n ∧ ∃ j, j < n ∧
    cs.get? i = some '@' ∧ cs.get? j = some '.' ∧
    1 ≤ i ∧ i + 2 ≤ j ∧ j + 2 ≤ n ∧
    ∀ k, k < n → k ≠ i → k ≠ j → ∀ c, cs.get? k = some c → isEmailChar c = true)

/-- The JavaScript `String.prototype.trim` used at `script.js` line 524:
drops leading and trailing whitespace.  Defined structurally over the
character list so that it evaluates by kernel reduction. -/
def jsTrim (s : String) : String :=
  ⟨((s.data.dropWhile Char.isWhitespace).reverse.dropWhile Char.isWhitespace).reverse⟩

/-- The state of one form input tracked by the validator: its declared
constraints (`required` attribute, `type` attribute), its current
string value, and its visual error state.  `errorMessages` lists the
messages of the `.error-message` elements currently present in the
parent container, in document order (the source keeps at most one, but
the model allows any number so that this can be proved). -/
structure Field where
  required : Bool
  type : String
  value : String
  errorClass : Bool
  errorMessages : List String
  borderColor : String
  boxShadow : String
deriving DecidableEq, Repr

/-- `removeFieldError` from `script.js` lines 580 to 589: removes the
first `.error-message` element of the parent, if any, and resets the
inline border and shadow styling of the field. -/
def removeFieldError (f : Field) : Field :=
  { f with
    errorMessages := match f.errorMessages with
      | [] => []
      | _ :: rest => rest
    borderColor := ""
    boxShadow := "" }

/-- `showFieldError` from `script.js` lines 555 to 578: adds the `error`
class, reuses the first existing `.error-message` element when present
(updating its message) or appends a fresh one otherwise, and sets the
inline error styling. -/
def showFieldError (f : Field) (message : String) : Field :=
  { f with
    errorClass := true
    errorMessages := match f.errorMessages with
      | [] => [message]
      | _ :: rest => message :: rest
    borderColor := "#ef4444"
    boxShadow := "0 0 0 3px rgba(239, 68, 68, 0.1)" }

/-- The message shown by the required check, `script.js` line 535. -/
def requiredMessage : String := "This field is required."

/-- The message shown by the email check, `script.js` line 543. -/
def emailMessage : String := "Please enter a valid email address."

/-- `validateField` from `script.js` lines 522 to 553, returning the
updated field state together with the boolean validity it returns.
The source trims the value, clears the previous error presentation,
then runs the required check and the email check, and shows the last
error message when either failed. -/
def validateField (f : Field) : Field × Bool :=
  let value := jsTrim f.value
  let f1 := removeFieldError { f with errorClass := false }
  let r1 : Bool × String :=
    if f1.required && value.isEmpty then (false, requiredMessage) else (true, "")
  let r2 : Bool × String :=
    if f1.type == "email" && !value.isEmpty then
      if !matchesEmailRegex value then (false, emailMessage) else r1
    else r1
  if !r2.1 then (showFieldError f1 r2.2, r2.1) else (f1, r2.1)

/-- `validateForm` from `script.js` lines 509 to 520: validates every
field carrying the `required` attribute (the others are untouched) and
returns the updated fields together with the conjunction of the
per-field results; the loop runs `validateField` on every required
field even after a failure. -/
def validateForm : List Field → List Field × Bool
  | [] => ([], true)
  | f :: fs =>
    if f.required then
      let rf := validateField f
      let rs := validateForm fs
      (rf.1 :: rs.1, rf.2 && rs.2)
    else
      let rs := validateForm fs
      (f :: rs.1, rs.2)

end Portfolio

namespace Portfolio

@[simp] theorem removeFieldError_type (f : Field) : (removeFieldError f).type = f.type := rfl

@[simp] theorem removeFieldError_required (f : Field) : (removeFieldError f).required = f.required := rfl

@[simp] theorem removeFieldError_value (f : Field) : (removeFieldError f).value = f.value := rfl

/-- `validateField` either reports validity and only clears the error
presentation, or reports invalidity and shows one of the two error
messages of the source. -/
theorem validateField_cases (f : Field) :
    validateField f = (removeFieldError { f with errorClass := false }, true) ∨
    ∃ m, (m = requiredMessage ∨ m = emailMessage) ∧
      validateField f = (showFieldError (removeFieldError { f with errorClass := false }) m, false) := by
  unfold validateField
  cases hr : f.required <;> cases he : (f.type == "email") <;>
    cases hv : (jsTrim f.value).isEmpty <;> cases hm : matchesEmailRegex (jsTrim f.value) <;>
      simp [hr, he, hv, hm]

/-- Closed form of the boolean returned by `validateField`. -/
theorem validateField_bool (f : Field) :
    (validateField f).2 =
      (!(f.required && (jsTrim f.value).isEmpty) &&
       !(f.type == "email" && !(jsTrim f.value).isEmpty && !matchesEmailRegex (jsTrim f.value))) := by
  unfold validateField
  cases hr : f.required <;> cases he : (f.type == "email") <;>
    cases hv : (jsTrim f.value).isEmpty <;> cases hm : matchesEmailRegex (jsTrim f.value) <;>
      simp [hr, he, hv, hm]

/-- A string without an at sign never matches the email regex. -/
theorem matchesEmailRegex_no_at (s : String) (h : ∀ i, s.data.get? i ≠ some '@') :
    matchesEmailRegex s = false := by
  unfold matchesEmailRegex
  simp only [decide_eq_false_iff_not]
  rintro ⟨i, _, j, _, hat, _⟩
  exact h i hat

/-- A string without a dot strictly after an at sign never matches the
email regex. -/
theorem matchesEmailRegex_no_dot_after_at (s : String)
    (h : ∀ i j, s.data.get? i = some '@' → s.data.get? j = some '.' → j ≤ i) :
    matchesEmailRegex s = false := by
  unfold matchesEmailRegex
  simp only [decide_eq_false_iff_not]
  rintro ⟨i, _, j, _, hat, hdot, _, hij, _⟩
  have := h i j hat hdot
  omega

end Portfolio

namespace Portfolio

/-- A non-required email field whose raw value is a single space:
non-empty, and not matching the email pattern. -/
def spaceEmailField : Field :=
  { required := false, type := "email", value := " ", errorClass := false,
    errorMessages := [], borderColor := "", boxShadow := "" }

/-- A required email field holding a syntactically valid address. -/
def goodEmailField : Field :=
  { required := true, type := "email", value := "a@b.com", errorClass := false,
    errorMessages := [], borderColor := "", boxShadow := "" }

/-- A required email field holding `not-an-email`. -/
def badEmailField : Field :=
  { required := true, type := "email", value := "not-an-email", errorClass := false,
    errorMessages := [], borderColor := "", boxShadow := "" }

/-- C1, counterexample to the claim as stated: the field kind is email,
the raw value (a single space) is non-empty and does not match the
pattern, yet validation succeeds and attaches no error, because the
source applies the email check to the trimmed value, which is empty. -/
theorem email_check_raw_value_cex :
    (" " : String) ≠ "" ∧ matchesEmailRegex " " = false ∧
    (validateField spaceEmailField).2 = true ∧
    (validateField spaceEmailField).1.errorMessages = [] := by
  exact ⟨by decide, by decide, by decide, by decide⟩

/-- C1, amended: with the trimmed value in place of the raw value, the
email check behaves as claimed.  The boolean returned by `validateField`
shows that the email check fires exactly when the kind is email and the
trimmed value is non-empty; on such fields, failure is equivalent to the
trimmed value not matching the pattern, and the attached message is the
InvalidFormat one; any string without an at sign, or without a dot
strictly after an at sign, fails to match; `not-an-email` does not match
and `a@b.com` does. -/
theorem email_check_spec (f : Field) :
    ((validateField f).2 =
      (!(f.required && (jsTrim f.value).isEmpty) &&
       !(f.type == "email" && !(jsTrim f.value).isEmpty && !matchesEmailRegex (jsTrim f.value)))) ∧
    (f.type = "email" → (jsTrim f.value).isEmpty = false →
      ((validateField f).2 = false ↔ matchesEmailRegex (jsTrim f.value) = false)) ∧
    (f.type = "email" → (jsTrim f.value).isEmpty = false → matchesEmailRegex (jsTrim f.value) = false →
      (validateField f).1.errorMessages.head? = some emailMessage) ∧
    (∀ s : String, (∀ i, s.data.get? i ≠ some '@') → matchesEmailRegex s = false) ∧
    (∀ s : String, (∀ i j, s.data.get? i = some '@' → s.data.get? j = some '.' → j ≤ i) →
      matchesEmailRegex s = false) ∧
    matchesEmailRegex "not-an-email" = false ∧ matchesEmailRegex "a@b.com" = true := by
  refine ⟨validateField_bool f, ?_, ?_, matchesEmailRegex_no_at,
    matchesEmailRegex_no_dot_after_at, by decide, by decide⟩
  · intro ht hv
    rw [validateField_bool f]
    simp [ht, hv]
  · intro ht hv hm
    unfold validateField
    simp only [removeFieldError_type, ht, hv, hm]
    cases hms : f.errorMessages with
    | nil => simp [showFieldError, removeFieldError, hms]
    | cons a t => cases t <;> simp [showFieldError, removeFieldError, hms]

/-- C1, witness: the amended theorem applied to the concrete field
holding `not-an-email`. -/
theorem email_check_spec_witness :
    (validateField badEmailField).2 = false ∧
    (validateField badEmailField).1.errorMessages.head? = some emailMessage ∧
    (validateField goodEmailField).2 = true := by
  refine ⟨?_, ?_, ?_⟩
  · exact ((email_check_spec badEmailField).2.1 rfl (by decide)).mpr (by decide)
  · exact (email_check_spec badEmailField).2.2.1 rfl (by decide) (by decide)
  · have h := (email_check_spec goodEmailField).1
    rw [h]
    decide

end Portfolio

namespace Portfolio

@[simp] theorem removeFieldError_errorClass (f : Field) :
    (removeFieldError f).errorClass = f.errorClass := rfl

@[simp] theorem removeFieldError_borderColor (f : Field) :
    (removeFieldError f).borderColor = "" := rfl

@[simp] theorem removeFieldError_boxShadow (f : Field) :
    (removeFieldError f).boxShadow = "" := rfl

/-- Removing the first error element never lengthens the error list. -/
theorem removeFieldError_length (f : Field) :
    (removeFieldError f).errorMessages.length ≤ f.errorMessages.length := by
  cases hms : f.errorMessages <;> simp [removeFieldError, hms]

/-- Showing an error reuses the existing first error element when one is
present, so the number of error elements only ever grows to one. -/
theorem showFieldError_length (f : Field) (m : String) :
    (showFieldError f m).errorMessages.length = max f.errorMessages.length 1 := by
  cases hms : f.errorMessages <;> simp [showFieldError, hms]

/-- C2: whole-form validation is the conjunction of the per-field
results over the fields carrying the required constraint, and the
resulting field states are exactly the per-field validation results,
each computed independently of the others (no short-circuit: a required
field is updated by its own validation even when an earlier field
already failed). -/
theorem validateForm_spec (fs : List Field) :
    (validateForm fs).2 = fs.all (fun f => !f.required || (validateField f).2) ∧
    (validateForm fs).1 = fs.map (fun f => if f.required then (validateField f).1 else f) := by
  induction fs with
  | nil => simp [validateForm]
  | cons f fs ih =>
    cases hr : f.required <;> simp [validateForm, hr, ih.1, ih.2]

/-- C3: a required field whose trimmed value is empty is invalid and
shows the MissingValue message. -/
theorem required_check_spec (f : Field) (hreq : f.required = true)
    (hempty : jsTrim f.value = "") :
    (validateField f).2 = false ∧
    (validateField f).1.errorMessages.head? = some requiredMessage := by
  have hv : (jsTrim f.value).isEmpty = true := by rw [hempty]; rfl
  refine ⟨by rw [validateField_bool f]; simp [hreq, hv], ?_⟩
  unfold validateField
  cases he : (f.type == "email") <;>
    simp only [removeFieldError_required, removeFieldError_type, hreq, hv, he] <;>
    cases hms : f.errorMessages with
    | nil => simp [showFieldError, removeFieldError, hms]
    | cons a t => cases t <;> simp [showFieldError, removeFieldError, hms]

/-- A required text field holding only whitespace. -/
def requiredBlankField : Field :=
  { required := true, type := "text", value := "   ", errorClass := false,
    errorMessages := [], borderColor := "", boxShadow := "" }

/-- C3, witness: the theorem applied to a required field holding only
whitespace. -/
theorem required_check_spec_witness :
    (validateField requiredBlankField).2 = false ∧
    (validateField requiredBlankField).1.errorMessages.head? = some requiredMessage :=
  required_check_spec requiredBlankField rfl (by decide)

/-- C9: starting from a field with at most one error element (the only
states the source ever builds), validation leaves a non-empty error
message exactly when it failed; on success every trace of the error
presentation (message element, error class, inline styling) is removed,
and on failure exactly one non-empty message is shown. -/
theorem field_error_invariant (f : Field) (h : f.errorMessages.length ≤ 1) :
    ((validateField f).1.errorMessages ≠ [] ↔ (validateField f).2 = false) ∧
    ((validateField f).2 = true → (validateField f).1.errorMessages = [] ∧
      (validateField f).1.errorClass = false ∧ (validateField f).1.borderColor = "" ∧
      (validateField f).1.boxShadow = "") ∧
    ((validateField f).2 = false → ∃ m, (validateField f).1.errorMessages = [m] ∧ m ≠ "") ∧
    (validateField f).1.errorMessages.length ≤ 1 := by
  have hrm : (removeFieldError { f with errorClass := false }).errorMessages = [] := by
    cases hms : f.errorMessages with
    | nil => simp [removeFieldError, hms]
    | cons a t =>
      rw [hms] at h
      have ht : t = [] := by cases t with | nil => rfl | cons b u => simp at h
      simp [removeFieldError, hms, ht]
  rcases validateField_cases f with hc | ⟨m, hm, hc⟩
  · rw [hc]
    simp [hrm]
  · rw [hc]
    have hsm : (showFieldError (removeFieldError { f with errorClass := false }) m).errorMessages
        = [m] := by
      simp [showFieldError, hrm]
    have hmne : m ≠ "" := by
      rcases hm with rfl | rfl <;> decide
    simp [hsm, hmne]

/-- C9, witness: the theorem applied to the concrete field holding
`not-an-email`. -/
theorem field_error_invariant_witness :
    ((validateField badEmailField).1.errorMessages ≠ [] ↔ (validateField badEmailField).2 = false) ∧
    (validateField badEmailField).1.errorMessages.length ≤ 1 := by
  have h := field_error_invariant badEmailField (by decide)
  exact ⟨h.1, h.2.2.2⟩

/-- C10: clearing the error presentation of an already-clean field is a
no-op; from any state with at most one error element, showing an error
yields exactly one error element (the existing one is reused, never
duplicated), validation preserves the at-most-one bound, and in general
showing an error never appends beyond the first element. -/
theorem error_clear_idempotent (f : Field) (m : String) :
    (f.errorMessages = [] → f.borderColor = "" → f.boxShadow = "" →
      removeFieldError f = f) ∧
    (f.errorMessages.length ≤ 1 → (showFieldError f m).errorMessages = [m]) ∧
    (f.errorMessages.length ≤ 1 → (validateField f).1.errorMessages.length ≤ 1) ∧
    (showFieldError f m).errorMessages.length = max f.errorMessages.length 1 := by
  refine ⟨?_, ?_, ?_, showFieldError_length f m⟩
  · intro h1 h2 h3
    obtain ⟨req, ty, v, ec, ems, bc, bs⟩ := f
    simp only at h1 h2 h3
    subst h1 h2 h3
    rfl
  · intro h
    cases hms : f.errorMessages with
    | nil => simp [showFieldError, hms]
    | cons a t =>
      rw [hms] at h
      have ht : t = [] := by cases t with | nil => rfl | cons b u => simp at h
      simp [showFieldError, hms, ht]
  · intro h
    exact (field_error_invariant f h).2.2.2

/-- C10, witness: the theorem applied to a concrete clean field. -/
theorem error_clear_idempotent_witness :
    removeFieldError goodEmailField = goodEmailField ∧
    (showFieldError goodEmailField "x").errorMessages = ["x"] := by
  have h := error_clear_idempotent goodEmailField "x"
  exact ⟨h.1 rfl rfl rfl, h.2.1 (by decide)⟩

end Portfolio

namespace Portfolio

/-- C2, witness: whole-form validation on a concrete two-field form with
one failing required field: the form is invalid and both required fields
carry their own validation result. -/
theorem validateForm_spec_witness :
    (validateForm [badEmailField, goodEmailField]).2 = false ∧
    (validateForm [badEmailField, goodEmailField]).1 =
      [(validateField badEmailField).1, (validateField goodEmailField).1] := by
  have h := validateForm_spec [badEmailField, goodEmailField]
  exact ⟨by rw [h.1]; decide, by rw [h.2]; decide⟩

/-- The outcome of the `fetch` call at `script.js` line 489: either a
response with an HTTP status code arrived, or the promise rejected. -/
inductive FetchOutcome where
  | response (status : Nat)
  | failure
deriving DecidableEq, Repr

/-- `Response.ok` of the Fetch standard, used at `script.js` line 495:
true exactly for status codes in the 200 to 299 range. -/
def responseOk (status : Nat) : Bool := 200 ≤ status && status ≤ 299

/-- One presented notification toast: its text and its severity type as
passed to `showNotification`. -/
structure Notification where
  message : String
  severity : String
deriving DecidableEq, Repr

/-- The busy label put on the submit button, `script.js` line 484. -/
def sendingLabel : String := "<i class=\"fas fa-spinner fa-spin\"></i> Sending..."

/-- The success toast text, `script.js` line 496. -/
def successMessage : String := "Thank you! Your message has been sent."

/-- The server-rejection toast text, `script.js` line 499. -/
def serverErrorMessage : String :=
  "Sorry, there was an error sending your message. Please try again."

/-- The network-failure toast text, `script.js` line 502. -/
def networkErrorMessage : String := "Network error. Please try again later."

/-- The page state touched by `handleContactSubmit`: the form fields,
the submit button state, and the list of notifications presented so
far (each `showNotification` call appends one). -/
structure UIState where
  fields : List Field
  submitDisabled : Bool
  submitLabel : String
  notifications : List Notification
deriving DecidableEq, Repr

/-- `form.reset()` at `script.js` line 497: every field returns to its
default (empty) value. -/
def resetFields (fs : List Field) : List Field :=
  fs.map fun f => { f with value := "" }

/-- `handleContactSubmit` from `script.js` lines 474 to 507 as the
sequence of page states it passes through, given the outcome of the
fetch call.  If validation fails the handler returns at line 481 having
only marked the fields.  Otherwise the button is disabled and its label
swapped (the Submitting state), the single fetch is issued, its outcome
is translated into exactly one notification (a 2xx response also resets
the form), and the `finally` block re-enables the button and restores
the saved original label. -/
def handleContactSubmitTrace (st : UIState) (outcome : FetchOutcome) : List UIState :=
  let originalButtonContent := st.submitLabel
  let vr := validateForm st.fields
  let validated : UIState := { st with fields := vr.1 }
  if !vr.2 then [validated]
  else
    let submitting : UIState :=
      { validated with submitDisabled := true, submitLabel := sendingLabel }
    let settled : UIState :=
      match outcome with
      | .response status =>
        if responseOk status then
          let notified : UIState :=
            { submitting with
              notifications := submitting.notifications ++ [⟨successMessage, "success"⟩] }
          { notified with fields := resetFields notified.fields }
        else
          { submitting with
            notifications := submitting.notifications ++ [⟨serverErrorMessage, "error"⟩] }
      | .failure =>
        { submitting with
          notifications := submitting.notifications ++ [⟨networkErrorMessage, "error"⟩] }
    let final : UIState :=
      { settled with submitDisabled := false, submitLabel := originalButtonContent }
    [validated, submitting, settled, final]

/-- The state left behind by `handleContactSubmit`. -/
def handleContactSubmit (st : UIState) (outcome : FetchOutcome) : UIState :=
  ((handleContactSubmitTrace st outcome).getLast?).getD st

end Portfolio

namespace Portfolio

/-- Per-field validation never changes the stored value. -/
theorem validateField_value (f : Field) : (validateField f).1.value = f.value := by
  rcases validateField_cases f with hc | ⟨m, _, hc⟩ <;> rw [hc] <;> rfl

/-- Whole-form validation never changes the stored values. -/
theorem validateForm_values (fs : List Field) :
    ((validateForm fs).1).map Field.value = fs.map Field.value := by
  induction fs with
  | nil => rfl
  | cons f fs ih =>
    cases hr : f.required <;> simp [validateForm, hr, ih, validateField_value]

/-- C4: when the form validates and the response status is in the 200 to
299 range, the handler resets every field to the empty value and
presents exactly one notification, of success severity, with the
success text; the submit control ends re-enabled with its original
label. -/
theorem submit_success_spec (st : UIState) (status : Nat)
    (hok : (validateForm st.fields).2 = true)
    (h1 : 200 ≤ status) (h2 : status ≤ 299) :
    handleContactSubmit st (.response status) =
      { fields := resetFields (validateForm st.fields).1,
        submitDisabled := false,
        submitLabel := st.submitLabel,
        notifications := st.notifications ++ [⟨successMessage, "success"⟩] } ∧
    (∀ f ∈ (handleContactSubmit st (.response status)).fields, f.value = "") ∧
    (handleContactSubmit st (.response status)).notifications.drop st.notifications.length
      = [⟨successMessage, "success"⟩] := by
  have hro : responseOk status = true := by simp [responseOk, h1, h2]
  have hmain : handleContactSubmit st (.response status) =
      { fields := resetFields (validateForm st.fields).1,
        submitDisabled := false,
        submitLabel := st.submitLabel,
        notifications := st.notifications ++ [⟨successMessage, "success"⟩] } := by
    simp [handleContactSubmit, handleContactSubmitTrace, hok, hro]
  refine ⟨hmain, ?_, ?_⟩
  · rw [hmain]
    intro f hf
    simp only [resetFields, List.mem_map] at hf
    obtain ⟨g, _, rfl⟩ := hf
    rfl
  · rw [hmain]
    simp

/-- A one-field form state that passes validation. -/
def okUIState : UIState :=
  { fields := [goodEmailField], submitDisabled := false,
    submitLabel := "Send Message", notifications := [] }

/-- C4, witness: a 200 response on a concrete valid form clears the
field and presents the success notification exactly once. -/
theorem submit_success_spec_witness :
    (∀ f ∈ (handleContactSubmit okUIState (.response 200)).fields, f.value = "") ∧
    (handleContactSubmit okUIState (.response 200)).notifications
      = [⟨successMessage, "success"⟩] := by
  have h := submit_success_spec okUIState 200 (by decide) (by decide) (by decide)
  exact ⟨h.2.1, by rw [h.1]; simp [okUIState]⟩

/-- C5: when the form validates, a response with status outside the 200
to 299 range appends exactly one notification, of error severity, with
the server-rejection text, and leaves the field values untouched (no
reset); a rejected request appends exactly one notification, of error
severity, with the distinct network-failure text; in both cases the
submit control ends re-enabled, and the single appended notification is
the only effect of the outcome (no retry is issued). -/
theorem submit_failure_spec (st : UIState) (status : Nat)
    (hok : (validateForm st.fields).2 = true)
    (hbad : responseOk status = false) :
    (handleContactSubmit st (.response status) =
      { fields := (validateForm st.fields).1,
        submitDisabled := false,
        submitLabel := st.submitLabel,
        notifications := st.notifications ++ [⟨serverErrorMessage, "error"⟩] }) ∧
    ((handleContactSubmit st (.response status)).fields.map Field.value
      = st.fields.map Field.value) ∧
    (handleContactSubmit st .failure =
      { fields := (validateForm st.fields).1,
        submitDisabled := false,
        submitLabel := st.submitLabel,
        notifications := st.notifications ++ [⟨networkErrorMessage, "error"⟩] }) ∧
    serverErrorMessage ≠ networkErrorMessage := by
  have hmain : handleContactSubmit st (.response status) =
      { fields := (validateForm st.fields).1,
        submitDisabled := false,
        submitLabel := st.submitLabel,
        notifications := st.notifications ++ [⟨serverErrorMessage, "error"⟩] } := by
    simp [handleContactSubmit, handleContactSubmitTrace, hok, hbad]
  refine ⟨hmain, ?_, ?_, by decide⟩
  · rw [hmain]
    exact validateForm_values st.fields
  · simp [handleContactSubmit, handleContactSubmitTrace, hok]

/-- C5, witness: a 422 response on a concrete valid form presents the
server-rejection notification, keeps the field value, and re-enables
the submit control. -/
theorem submit_failure_spec_witness :
    (handleContactSubmit okUIState (.response 422)).notifications
      = [⟨serverErrorMessage, "error"⟩] ∧
    (handleContactSubmit okUIState (.response 422)).fields.map Field.value = ["a@b.com"] ∧
    (handleContactSubmit okUIState (.response 422)).submitDisabled = false ∧
    (handleContactSubmit okUIState .failure).notifications
      = [⟨networkErrorMessage, "error"⟩] := by
  have h := submit_failure_spec okUIState 422 (by decide) (by decide)
  refine ⟨by rw [h.1]; simp [okUIState], ?_, by rw [h.1], by rw [h.2.2.1]; simp [okUIState]⟩
  rw [h.2.1]
  decide

/-- C6: whenever validation passes, the handler passes through exactly
the four states of the trace: fields validated, then the Submitting
state with the submit control disabled and the busy label shown, then
the settled state of the particular outcome, then the final state that
unconditionally re-enables the control and restores the saved original
label, for every outcome (success, rejection, or network failure). -/
theorem submitting_lifecycle (st : UIState) (outcome : FetchOutcome)
    (hok : (validateForm st.fields).2 = true) :
    ∃ settled : UIState,
      handleContactSubmitTrace st outcome =
        [{ st with fields := (validateForm st.fields).1 },
         { st with
           fields := (validateForm st.fields).1,
           submitDisabled := true,
           submitLabel := sendingLabel },
         settled,
         { settled with submitDisabled := false, submitLabel := st.submitLabel }] := by
  cases outcome with
  | response status =>
    cases hro : responseOk status with
    | true =>
      refine ⟨{ st with
                fields := resetFields (validateForm st.fields).1,
                submitDisabled := true,
                submitLabel := sendingLabel,
                notifications := st.notifications ++ [⟨successMessage, "success"⟩] }, ?_⟩
      simp [handleContactSubmitTrace, hok, hro]
    | false =>
      refine ⟨{ st with
                fields := (validateForm st.fields).1,
                submitDisabled := true,
                submitLabel := sendingLabel,
                notifications := st.notifications ++ [⟨serverErrorMessage, "error"⟩] }, ?_⟩
      simp [handleContactSubmitTrace, hok, hro]
  | failure =>
    refine ⟨{ st with
              fields := (validateForm st.fields).1,
              submitDisabled := true,
              submitLabel := sendingLabel,
              notifications := st.notifications ++ [⟨networkErrorMessage, "error"⟩] }, ?_⟩
    simp [handleContactSubmitTrace, hok]

/-- C6, witness: on a concrete valid form with a network failure, the
trace disables the control with the busy label and then re-enables it
with the original label. -/
theorem submitting_lifecycle_witness :
    ((handleContactSubmitTrace okUIState .failure).map
      (fun s => (s.submitDisabled, s.submitLabel)))[1]? = some (true, sendingLabel) ∧
    ((handleContactSubmitTrace okUIState .failure).map
      (fun s => (s.submitDisabled, s.submitLabel)))[3]? = some (false, "Send Message") := by
  obtain ⟨settled, hs⟩ := submitting_lifecycle okUIState .failure (by decide)
  rw [hs]
  exact ⟨rfl, rfl⟩
end Portfolio

namespace Portfolio

/-- The state of one notification toast created by `showNotification`
(`script.js` lines 603 to 667) under virtual time.  `timerPending` and
`timerDeadline` model the `setTimeout` handle of line 658 and its due
time; `pendingCompletes` lists the finish times of dismiss transitions
started by `dismissNotification` (each gsap exit tween of line 670 runs
for 0.4 seconds and then fires `onComplete`); `dismissTriggers` counts
the calls to `dismissNotification`; `inDoc` says whether the element is
still attached to the document body, and `removeCount` counts executed
`removeChild` calls. -/
structure NotifState where
  timerPending : Bool
  timerDeadline : Nat
  pendingCompletes : List Nat
  dismissTriggers : Nat
  inDoc : Bool
  removeCount : Nat
deriving DecidableEq, Repr

/-- `showNotification` at creation time `t`: the element is appended to
the document and the auto-dismiss timeout is scheduled after 5000 ms
for the `error` type and 3000 ms otherwise (`script.js` lines 658 to
660). -/
def showNotification (t : Nat) (severity : String) : NotifState :=
  { timerPending := true
    timerDeadline := t + (if severity == "error" then 5000 else 3000)
    pendingCompletes := []
    dismissTriggers := 0
    inDoc := true
    removeCount := 0 }

/-- `dismissNotification` called at time `t` (`script.js` lines 669 to
682): starts the 0.4 second exit tween, whose `onComplete` callback
will run at `t + 400`. -/
def dismissNotification (t : Nat) (s : NotifState) : NotifState :=
  { s with
    dismissTriggers := s.dismissTriggers + 1
    pendingCompletes := s.pendingCompletes ++ [t + 400] }

/-- The discrete events that can reach a notification: its auto-dismiss
timeout firing, a user click on the element, and the completion
callback of a started exit tween. -/
inductive NotifEvent where
  | timer
  | click
  | complete
deriving DecidableEq, Repr

/-- One event delivered at a virtual time.  The timeout only fires if
still pending and due (clearTimeout at line 664 makes a cancelled
timeout a no-op); a click is only possible while the element is in the
document, and runs `clearTimeout` followed by `dismissNotification`
(lines 663 to 666); a completion callback only fires at the finish time
of a started tween, and executes `removeChild` only when the element
still has a parent (lines 676 to 680). -/
def notifStep (s : NotifState) : Nat × NotifEvent → NotifState
  | (t, .timer) =>
    if s.timerPending && t == s.timerDeadline then
      dismissNotification t { s with timerPending := false }
    else s
  | (t, .click) =>
    if s.inDoc then
      dismissNotification t { s with timerPending := false }
    else s
  | (t, .complete) =>
    if s.pendingCompletes.contains t then
      let s1 := { s with pendingCompletes := s.pendingCompletes.erase t }
      if s1.inDoc then { s1 with inDoc := false, removeCount := s1.removeCount + 1 }
      else s1
    else s

/-- A notification run: the events delivered to one notification, in
order, folded over the step function. -/
def notifRun (s : NotifState) (events : List (Nat × NotifEvent)) : NotifState :=
  events.foldl notifStep s

/-- Invariant of a notification: removal happened at most once and only
while attached, every started transition and every removal stems from a
dismiss trigger, and while the timeout is pending no transition has
started and the element is attached. -/
def NotifInv (s : NotifState) : Prop :=
  (s.inDoc = true → s.removeCount = 0) ∧
  s.removeCount ≤ 1 ∧
  s.pendingCompletes.length ≤ s.dismissTriggers ∧
  s.removeCount ≤ s.dismissTriggers ∧
  (s.timerPending = true → s.pendingCompletes = [] ∧ s.inDoc = true)

/-- The invariant is preserved by every event. -/
theorem notifStep_inv (s : NotifState) (e : Nat × NotifEvent) (h : NotifInv s) :
    NotifInv (notifStep s e) := by
  obtain ⟨t, ev⟩ := e
  obtain ⟨h1, h2, h3, h4, h5⟩ := h
  cases ev with
  | timer =>
    simp only [notifStep]
    split
    · refine ⟨fun hd => h1 hd, h2, ?_, ?_, by simp [dismissNotification]⟩ <;>
        simp [dismissNotification] <;> omega
    · exact ⟨h1, h2, h3, h4, h5⟩
  | click =>
    simp only [notifStep]
    split
    · refine ⟨fun hd => h1 hd, h2, ?_, ?_, by simp [dismissNotification]⟩ <;>
        simp [dismissNotification] <;> omega
    · exact ⟨h1, h2, h3, h4, h5⟩
  | complete =>
    simp only [notifStep]
    split
    · rename_i hmem
      have hmem2 : t ∈ s.pendingCompletes := by
        simpa using hmem
      have hp : s.timerPending = false := by
        cases htp : s.timerPending
        · rfl
        · rw [(h5 htp).1] at hmem2
          simp at hmem2
      have hlen : (s.pendingCompletes.erase t).length = s.pendingCompletes.length - 1 :=
        List.length_erase_of_mem hmem2
      have hpos : 1 ≤ s.pendingCompletes.length :=
        List.length_pos.mpr (List.ne_nil_of_mem hmem2)
      split
      · rename_i hdoc
        have hrc : s.removeCount = 0 := h1 (by simpa using hdoc)
        refine ⟨by simp, by simp [hrc], by simp [hlen]; omega, ?_, by simp [hp]⟩
        simp [hrc, hlen]
        omega
      · rename_i hdoc
        refine ⟨fun hd => absurd hd (by simpa using hdoc), h2, by simp [hlen]; omega,
          h4, by simp [hp]⟩
    · exact ⟨h1, h2, h3, h4, h5⟩

end Portfolio

namespace Portfolio

/-- The invariant holds after any run from any state satisfying it. -/
theorem notifRun_inv (events : List (Nat × NotifEvent)) (s : NotifState)
    (h : NotifInv s) : NotifInv (notifRun s events) := by
  induction events generalizing s with
  | nil => exact h
  | cons e es ih => exact ih (notifStep s e) (notifStep_inv s e h)

/-- A freshly shown notification satisfies the invariant. -/
theorem showNotification_inv (t : Nat) (severity : String) :
    NotifInv (showNotification t severity) := by
  refine ⟨fun _ => rfl, by simp [showNotification], by simp [showNotification],
    by simp [showNotification], fun _ => ⟨rfl, rfl⟩⟩

/-- A cancelled or fired timeout never becomes pending again. -/
theorem notifStep_timer_off (s : NotifState) (e : Nat × NotifEvent)
    (h : s.timerPending = false) : (notifStep s e).timerPending = false := by
  obtain ⟨t, ev⟩ := e
  cases ev with
  | timer =>
    simp only [notifStep]
    split
    · simp [dismissNotification]
    · exact h
  | click =>
    simp only [notifStep]
    split
    · simp [dismissNotification]
    · exact h
  | complete =>
    simp only [notifStep]
    split
    · split
      · exact h
      · exact h
    · exact h

/-- A cancelled or fired timeout stays off through any later events. -/
theorem notifRun_timer_off (events : List (Nat × NotifEvent)) (s : NotifState)
    (h : s.timerPending = false) : (notifRun s events).timerPending = false := by
  induction events generalizing s with
  | nil => exact h
  | cons e es ih => exact ih (notifStep s e) (notifStep_timer_off s e h)

/-- After a click event the timeout is never pending, whatever held
before, provided the invariant held. -/
theorem notifStep_click_timer_off (s : NotifState) (u : Nat) (h : NotifInv s) :
    (notifStep s (u, NotifEvent.click)).timerPending = false := by
  simp only [notifStep]
  split
  · simp [dismissNotification]
  · rename_i hdoc
    cases htp : s.timerPending
    · rfl
    · exact absurd (h.2.2.2.2 htp).2 (by simpa using hdoc)

end Portfolio

namespace Portfolio

/-- C7, counterexample to the claim as stated: an untouched success
notification created at time 0 is not removed at time 3000 — at that
instant the timeout has fired and the dismiss transition has started,
but the element is still in the document; the removal happens when the
400 ms exit transition completes, at time 3400. -/
theorem notification_autodismiss_cex :
    (showNotification 0 "success").timerDeadline = 3000 ∧
    (notifRun (showNotification 0 "success") [(3000, .timer)]).dismissTriggers = 1 ∧
    (notifRun (showNotification 0 "success") [(3000, .timer)]).inDoc = true ∧
    (notifRun (showNotification 0 "success") [(3000, .timer), (3400, .complete)]).inDoc = false ∧
    (notifRun (showNotification 0 "success")
      [(3000, .timer), (3400, .complete)]).removeCount = 1 := by
  decide

/-- C7, amended: the auto-dismiss deadline depends only on severity —
5000 ms after creation for error severity, 3000 ms for any other — and
an untouched notification created at time T starts its dismiss
transition when the timeout fires at its deadline (still attached at
that instant) and is removed when the 400 ms transition completes, at
deadline plus 400 ms. -/
theorem notification_autodismiss_spec (t : Nat) (severity : String) :
    (showNotification t severity).timerDeadline
      = t + (if severity == "error" then 5000 else 3000) ∧
    (showNotification t "error").timerDeadline = t + 5000 ∧
    (showNotification t "success").timerDeadline = t + 3000 ∧
    (notifRun (showNotification t severity)
      [((showNotification t severity).timerDeadline, NotifEvent.timer)]).dismissTriggers = 1 ∧
    (notifRun (showNotification t severity)
      [((showNotification t severity).timerDeadline, NotifEvent.timer)]).inDoc = true ∧
    (notifRun (showNotification t severity)
      [((showNotification t severity).timerDeadline, NotifEvent.timer),
       ((showNotification t severity).timerDeadline + 400, NotifEvent.complete)]).inDoc = false ∧
    (notifRun (showNotification t severity)
      [((showNotification t severity).timerDeadline, NotifEvent.timer),
       ((showNotification t severity).timerDeadline + 400, NotifEvent.complete)]).removeCount
      = 1 := by
  refine ⟨rfl, rfl, rfl, ?_, ?_, ?_, ?_⟩ <;>
    simp [notifRun, notifStep, showNotification, dismissNotification]

/-- C7, witness: concrete deadlines for an error and a success
notification created at time 100. -/
theorem notification_autodismiss_spec_witness :
    (showNotification 100 "error").timerDeadline = 100 + 5000 ∧
    (showNotification 100 "success").timerDeadline = 100 + 3000 := by
  have h := notification_autodismiss_spec 100 "success"
  exact ⟨h.2.1, h.2.2.1⟩

/-- C8, counterexample to the claim as stated: if the timeout fires at
3000 and the user clicks the still-attached element at 3100, during the
exit transition, both the timer fire and the manual click trigger a
dismiss transition (two calls to `dismissNotification`), because the
click listener stays attached and `clearTimeout` cannot undo a timeout
that already fired.  Removal nevertheless happens exactly once. -/
theorem notification_single_trigger_cex :
    (notifRun (showNotification 0 "success")
      [(3000, .timer), (3100, .click)]).dismissTriggers = 2 ∧
    (notifRun (showNotification 0 "success")
      [(3000, .timer), (3100, .click), (3400, .complete), (3500, .complete)]).removeCount
      = 1 := by
  decide

/-- C8, amended: over every event sequence delivered to a notification,
the element is removed from the document at most once and only after
some dismiss transition was triggered; a manual click cancels the
pending timeout before dismissing, so after any click the timeout is
off and can never fire (though a click arriving after the timeout
already fired starts the transition again); and a completion callback
finding the element already detached skips the removal. -/
theorem notification_dismiss_safety (t0 : Nat) (severity : String)
    (events : List (Nat × NotifEvent)) :
    (notifRun (showNotification t0 severity) events).removeCount ≤ 1 ∧
    ((notifRun (showNotification t0 severity) events).removeCount = 1 →
      1 ≤ (notifRun (showNotification t0 severity) events).dismissTriggers) ∧
    (∀ before after u, events = before ++ (u, NotifEvent.click) :: after →
      (notifRun (showNotification t0 severity) events).timerPending = false) ∧
    (∀ s : NotifState, s.inDoc = false → ∀ u,
      (notifStep s (u, NotifEvent.complete)).removeCount = s.removeCount ∧
      (notifStep s (u, NotifEvent.complete)).inDoc = false) := by
  have hinv := notifRun_inv events _ (showNotification_inv t0 severity)
  refine ⟨hinv.2.1, fun h => h ▸ hinv.2.2.2.1, ?_, ?_⟩
  · rintro before after u rfl
    have h1 : notifRun (showNotification t0 severity)
          (before ++ (u, NotifEvent.click) :: after)
        = notifRun (notifStep (notifRun (showNotification t0 severity) before)
            (u, NotifEvent.click)) after := by
      simp [notifRun, List.foldl_append]
    rw [h1]
    apply notifRun_timer_off
    apply notifStep_click_timer_off
    exact notifRun_inv before _ (showNotification_inv t0 severity)
  · intro s hdoc u
    simp only [notifStep]
    split
    · simp [hdoc]
    · exact ⟨rfl, hdoc⟩

/-- C8, witness: a click at 2000 on an error notification cancels the
timeout, so the timer event at the 5000 deadline is a no-op, and the
element is removed at most once. -/
theorem notification_dismiss_safety_witness :
    (notifRun (showNotification 0 "error")
      [(2000, NotifEvent.click), (5000, NotifEvent.timer),
       (2400, NotifEvent.complete)]).removeCount ≤ 1 ∧
    (notifRun (showNotification 0 "error")
      [(2000, NotifEvent.click), (5000, NotifEvent.timer),
       (2400, NotifEvent.complete)]).timerPending = false := by
  have h := notification_dismiss_safety 0 "error"
    [(2000, NotifEvent.click), (5000, NotifEvent.timer), (2400, NotifEvent.complete)]
  exact ⟨h.1, h.2.2.1 [] [(5000, NotifEvent.timer), (2400, NotifEvent.complete)] 2000 rfl⟩

end Portfolio
